import Mathlib

/-!
# Verification of `src/mayautils.py` (`SceneFile`)

Shallow embedding of the `SceneFile` class from `src/src/mayautils.py`.

The class composes versioned scene-file names, parses them back, scans a
directory for the next available version, and orchestrates the host
application's save primitive.  The embedding below translates each method
from the Python source.  String-processing primitives of Python / `path.py`
(`str.split`, `os.path.dirname`, `os.path.basename`, `os.path.splitext`,
`os.path.join`, `int(...)`, `fnmatch`) are modelled as executable functions
on `List Char` / `String`, faithful to their CPython definitions on the
inputs this module feeds them (ASCII simplifications are noted locally).

External collaborators (the host's `sceneName`, `saveAs`, `makedirs_p`,
`dir.files()`) are modelled as explicit parameters: the current scene name
and the directory listing are inputs, and the host's save call is an oracle
giving the outcome of each attempt.
-/

/-- Python exception kinds that the translated code can raise. -/
inductive PyErr where
  /-- `IndexError` (out-of-range list indexing, e.g. `[][-1]` or `split(..)[1]`). -/
  | indexError
  /-- `ValueError` (failed `int(...)` parse or failed tuple unpacking of `split`). -/
  | valueError
  /-- `RuntimeError` raised by the host's `saveAs` (the host reports missing
  target directories this way, per the module's save logic). -/
  | runtimeError
  /-- any other host/exception class (not caught by `except RuntimeError`). -/
  | otherError
deriving DecidableEq, Repr

/-- Python run-time values, as far as this module's attribute slots need:
strings, `path.py` `Path` objects (which wrap a string), integers, `None`. -/
inductive PyVal where
  | strV (s : String)
  | pathObj (s : String)
  | intV (n : Int)
  | noneV
deriving DecidableEq, Repr

/-- ASCII decimal digit for `d < 10`. -/
def digitChar (d : Nat) : Char := Char.ofNat (48 + d)

/-- Decimal digits of `n`, most significant first (fuel-based so that the
kernel can evaluate it). -/
def natDigitsAux : Nat → Nat → List Char
  | 0, _ => []
  | fuel + 1, n => if n < 10 then [digitChar n]
      else natDigitsAux fuel (n / 10) ++ [digitChar (n % 10)]

/-- Decimal representation of a natural number (as Python's `str`). -/
def natRepr (n : Nat) : List Char := natDigitsAux (n + 1) n

/-- Decimal representation of an integer (as Python's `str`). -/
def intRepr (n : Int) : List Char :=
  if n < 0 then '-' :: natRepr n.natAbs else natRepr n.natAbs

/-- Python's `"{:03d}".format(n)`: pad the decimal representation with
leading zeros to a total width of 3; the sign counts toward the width and
stays in front of the padding.  Values needing more than 3 characters are
rendered in full (no truncation). -/
def py03d (n : Int) : List Char :=
  if n < 0 then
    '-' :: List.replicate (2 - (natRepr n.natAbs).length) '0' ++ natRepr n.natAbs
  else
    List.replicate (3 - (natRepr n.natAbs).length) '0' ++ natRepr n.natAbs

/-- Python's `str.split(sep)` for a single-character separator `sep`:
splits on every occurrence, keeping empty parts (`"a__b" → ["a","","b"]`,
`"" → [""]`). -/
def splitOnChar (sep : Char) : List Char → List (List Char)
  | [] => [[]]
  | c :: cs =>
    if c = sep then [] :: splitOnChar sep cs
    else
      match splitOnChar sep cs with
      | [] => [[c]]
      | h :: t => (c :: h) :: t

/-- Python's `str.split(sep)` for a two-character separator `a ++ b`
(used by the source as `name.split("_v")`): scans left to right, splitting
at each non-overlapping occurrence of the pair. -/
def splitOnPair (a b : Char) : List Char → List (List Char)
  | [] => [[]]
  | [c] => [[c]]
  | c :: d :: cs =>
    if c = a ∧ d = b then [] :: splitOnPair a b cs
    else
      match splitOnPair a b (d :: cs) with
      | [] => [[c]]
      | h :: t => (c :: h) :: t

/-- Is `c` ASCII whitespace?  (Python's `int` ignores surrounding
whitespace; CPython additionally ignores some Unicode spaces, which cannot
occur in the claims' inputs.) -/
def isPyWS (c : Char) : Bool :=
  c = ' ' || c = '\t' || c = '\n' || c = '\r' || c.toNat = 11 || c.toNat = 12

/-- Strip leading and trailing ASCII whitespace. -/
def pyStrip (cs : List Char) : List Char :=
  ((cs.dropWhile isPyWS).reverse.dropWhile isPyWS).reverse

/-- Are all characters ASCII digits, and is the list non-empty? -/
def isDigits (cs : List Char) : Bool :=
  !cs.isEmpty && cs.all (fun c => c.isDigit)

/-- Numeric value of a digit string (most significant first). -/
def digitsToNat (cs : List Char) : Nat :=
  cs.foldl (fun a c => 10 * a + (c.toNat - 48)) 0

/-- Python's `int(s)` on a string: strip whitespace, allow one optional
sign, then require a non-empty run of decimal digits; `none` models the
`ValueError` raised otherwise.  (ASCII model: CPython also accepts Unicode
decimal digits and `_` digit grouping; the strings this module feeds to
`int` are slices of file names already split on `_`.) -/
def pyInt (s : List Char) : Option Int :=
  match pyStrip s with
  | '-' :: rest => if isDigits rest then some (-(digitsToNat rest : Int)) else none
  | '+' :: rest => if isDigits rest then some (digitsToNat rest : Int) else none
  | cs => if isDigits cs then some (digitsToNat cs : Int) else none

/-- `os.path.basename(p)` (POSIX): the part of `p` after the last `/`
(i.e. `p[p.rfind('/') + 1 :]`), which is the last piece of the `/`-split. -/
def pyBasename (cs : List Char) : List Char :=
  (splitOnChar '/' cs).getLastD []

/-- `os.path.dirname(p)` (POSIX): `head = p[: p.rfind('/') + 1]`; if `head`
is non-empty and not all slashes, its trailing slashes are stripped. -/
def pyDirname (cs : List Char) : List Char :=
  let head := (cs.reverse.dropWhile (fun c => c ≠ '/')).reverse
  if head ≠ [] ∧ ¬ head.all (fun c => c = '/') then
    (head.reverse.dropWhile (fun c => c = '/')).reverse
  else head

/-- The extension part of `os.path.splitext(p)` (POSIX): the suffix of the
final path segment from its last `.`, provided some character of that
segment before the dot is not itself a dot (so `".bashrc"` has no
extension); `[]` when there is no such dot.  `path.py`'s `Path.ext`
property returns exactly this. -/
def pyExtFull (cs : List Char) : List Char :=
  let nm := pyBasename cs
  let afterRev := nm.reverse.takeWhile (fun c => c ≠ '.')
  if afterRev.length = nm.length then []  -- no '.' in the final segment
  else
    let pre := nm.take (nm.length - afterRev.length - 1)
    if pre.any (fun c => c ≠ '.') then '.' :: afterRev.reverse else []

/-- `os.path.join(a, b)` (POSIX) for the two-argument case used by
`path.py`'s `Path.__div__`. -/
def pyJoin (a b : List Char) : List Char :=
  if b.headD ' ' = '/' then b
  else if a = [] then b
  else if a.getLastD ' ' = '/' then a ++ b
  else a ++ '/' :: b

/-- The `SceneFile` record: directory (a `path.py` `Path`, stored here as
its underlying string), descriptor, version, extension.  Python's dynamic
attribute typing of the `dir` slot is modelled separately (`SceneFileDyn`). -/
structure SceneFile where
  dir : String
  descriptor : String
  version : Int
  ext : String
deriving DecidableEq, Repr

namespace SceneFile

/-- `SceneFile.basename` from the source:

```python
name_pattern = "{descriptor}_{version:03d}.{ext}"
```

Note the pattern as written in the source has no `v` marker between `_`
and the zero-padded version. -/
def basename (f : SceneFile) : String :=
  (f.descriptor.toList ++ '_' :: py03d f.version ++ '.' :: f.ext.toList).asString

/-- `SceneFile.path`: `Path(self.dir) / self.basename()`, i.e.
`os.path.join` of the directory and the composed name. -/
def path (f : SceneFile) : String :=
  (pyJoin f.dir.toList f.basename.toList).asString

end SceneFile

/-- `SceneFile._init_properties_from_path`:

```python
self._dir = path.dirname()
self.ext = path.ext[1:]
self.descriptor, version = path.name.split("_")
self.version = int(version.split(".")[0][1:])
```

The unpacking assignment raises `ValueError` unless the split yields
exactly two parts; `int(...)` raises `ValueError` on a non-integer string.
An error propagates out of the method (the source assigns `_dir` and `ext`
before the statement that can raise; that partial mutation is modelled in
`SceneFileDyn.dynStep`, while here an error simply yields no result). -/
def _init_properties_from_path (p : String) : Except PyErr SceneFile :=
  let cs := p.toList
  let dir := (pyDirname cs).asString
  let ext := ((pyExtFull cs).drop 1).asString
  match splitOnChar '_' (pyBasename cs) with
  | [d, v] =>
    match pyInt (((splitOnChar '.' v).headD []).drop 1) with
    | some n => .ok ⟨dir, d.asString, n, ext⟩
    | none => .error .valueError
  | _ => .error .valueError

/-- `SceneFile.__init__(dir='', descriptor="main", version=1, ext="ma")`:
set the four attributes from the arguments, then ask the host for the
current scene name (`pmc.system.sceneName()`, modelled as the input
`sceneName`, the empty string when no scene is open, which is falsy); if a
scene is open, re-initialise every attribute by parsing its path. -/
def SceneFile.construct (dirArg descriptor : String) (version : Int) (ext : String)
    (sceneName : String) : Except PyErr SceneFile :=
  let f : SceneFile := ⟨dirArg, descriptor, version, ext⟩
  if sceneName.isEmpty then .ok f
  else _init_properties_from_path sceneName

/-- Outcome of one host `saveAs` call: success, a `RuntimeError` (the
host's report that target directories are missing), or a failure of any
other exception class. -/
inductive SaveOutcome where
  | ok
  | runtimeError
  | otherError
deriving DecidableEq, Repr

/-- What a run of `SceneFile.save` did: the paths passed to the host's
`saveAs`, in order; whether `self.dir.makedirs_p()` ran; and the outcome
(`save` has no `return` statement, so a successful run returns `None`). -/
structure SaveTrace where
  calls : List String
  madeDirs : Bool
  result : Except PyErr PyVal
deriving Repr

/-- `SceneFile.save`:

```python
try:
    pmc.system.saveAs(self.path())
except RuntimeError:
    log.warning("Missing directories. Creating Directories.")
    self.dir.makedirs_p()
    pmc.system.saveAs(self.path())
```

`host n p` is the outcome the host gives the `n`-th `saveAs` call (0-based)
with argument `p`.  Only `RuntimeError` is caught, and only from the first
call; the retry happens once, after creating the directory tree
(`makedirs_p` is modelled as succeeding; the claims do not concern its own
failure).  A failure of the retry, of either class, propagates. -/
def SceneFile.save (f : SceneFile) (host : Nat → String → SaveOutcome) : SaveTrace :=
  match host 0 f.path with
  | .ok => ⟨[f.path], false, .ok .noneV⟩
  | .runtimeError =>
    match host 1 f.path with
    | .ok => ⟨[f.path, f.path], true, .ok .noneV⟩
    | .runtimeError => ⟨[f.path, f.path], true, .error .runtimeError⟩
    | .otherError => ⟨[f.path, f.path], true, .error .otherError⟩
  | .otherError => ⟨[f.path], false, .error .otherError⟩

/-- The single-`*` `fnmatch` pattern `pre*suf` with literal `pre` and
`suf` matches `nm` iff `nm = pre ++ mid ++ suf` for some (possibly empty)
`mid`; equivalently the prefix/suffix tests below.  The source's pattern is
`"{descriptor}_v*.{ext}"`, so `pre = descriptor ++ "_v"` and
`suf = "." ++ ext`; the decomposition is faithful to `fnmatch` whenever
`descriptor` and `ext` contain no glob metacharacters (`*`, `?`, `[`) —
the theorems about version resolution carry that hypothesis. -/
def fnmatchStar (pre suf nm : List Char) : Bool :=
  decide (pre.length + suf.length ≤ nm.length) && pre.isPrefixOf nm && suf.isSuffixOf nm

/-- Glob metacharacters of `fnmatch`. -/
def noGlobMeta (s : String) : Bool :=
  s.toList.all (fun c => c ≠ '*' ∧ c ≠ '?' ∧ c ≠ '[')

/-- The files of the listing whose *name* (final segment; `path.py`'s
`Path.fnmatch` matches `self.name` against the pattern) matches the glob
`"{descriptor}_v*.{ext}"`.  The listing stands for `self.dir.files()`,
given as the list of file names in the directory. -/
def matchedScenes (f : SceneFile) (listing : List String) : List String :=
  listing.filter (fun nm =>
    fnmatchStar (f.descriptor.toList ++ ['_', 'v']) ('.' :: f.ext.toList) nm.toList)

/-- One element of the source's comprehension
`int(scene.name.split("_v")[1].split(".")[0])`: indexing `[1]` raises
`IndexError` when the name contains no `"_v"`; `int` raises `ValueError`
on a non-integer segment. -/
def extractVersion (nm : List Char) : Except PyErr Int :=
  match splitOnPair '_' 'v' nm with
  | _ :: v :: _ =>
    match pyInt ((splitOnChar '.' v).headD []) with
    | some n => .ok n
    | none => .error .valueError
  | _ => .error .indexError

/-- The comprehension over all matched scenes; Python evaluates left to
right and the first exception propagates. -/
def extractVersions : List (List Char) → Except PyErr (List Int)
  | [] => .ok []
  | nm :: rest =>
    match extractVersion nm with
    | .error e => .error e
    | .ok v =>
      match extractVersions rest with
      | .error e => .error e
      | .ok vs => .ok (v :: vs)

/-- `list(set(versions))`: duplicates removed (membership is what matters;
the subsequent sort fixes the order). -/
def pyDedup : List Int → List Int
  | [] => []
  | x :: xs => if x ∈ xs then pyDedup xs else x :: pyDedup xs

/-- `versions.sort()`: sort ascending.  On the deduplicated (hence
duplicate-free) list the ascending ordering is unique, so insertion sort
gives exactly Python's result. -/
def pySorted (l : List Int) : List Int := List.insertionSort (· ≤ ·) l

/-- `SceneFile.next_avail_version`:

```python
pattern = "{descriptor}_v*.{ext}".format(...)
self.dir.files()
matched_scenes = [file for file in self.dir.files() if file.fnmatch(pattern)]
versions = [int(scene.name.split("_v")[1].split(".")[0]) for scene in matched_scenes]
versions = list(set(versions))
versions.sort()
return versions[-1] + 1
```

(The first `self.dir.files()` call's result is discarded by the source.)
`versions[-1]` on an empty list raises `IndexError`. -/
def SceneFile.next_avail_version (f : SceneFile) (listing : List String) :
    Except PyErr Int :=
  match extractVersions ((matchedScenes f listing).map (fun s => s.toList)) with
  | .error e => .error e
  | .ok versions =>
    match (pySorted (pyDedup versions)).getLast? with
    | none => .error .indexError
    | some m => .ok (m + 1)

/-- What a run of `SceneFile.increment_and_save` did: the object's state
afterwards, the trace of the inner `save` (absent when
`next_avail_version` raised first), and the outcome (`None` on success:
the method has no `return` statement). -/
structure IncSaveTrace where
  state : SceneFile
  saveTrace : Option SaveTrace
  result : Except PyErr PyVal
deriving Repr

/-- `SceneFile.increment_and_save`:

```python
self.version = self.next_avail_version()
self.save()
```

The version attribute is assigned before `save` runs; a failure inside
`save` leaves the already-mutated version in place (no rollback). -/
def SceneFile.increment_and_save (f : SceneFile) (listing : List String)
    (host : Nat → String → SaveOutcome) : IncSaveTrace :=
  match f.next_avail_version listing with
  | .error e => ⟨f, none, .error e⟩
  | .ok v =>
    let f' : SceneFile := { f with version := v }
    let t := f'.save host
    ⟨f', some t, t.result⟩

/-! ## Dynamic attribute typing of the `dir` slot

Python stores any value in an attribute slot; the `dir` property's setter
(`self._dir = Path(val)`) is what keeps `_dir` a `Path` object.  The model
below keeps the slots at type `PyVal` and replays the attribute writes the
class performs, to state that invariant. -/

/-- `str(x)` for the modelled values (`path.py`'s `Path` subclasses `str`,
so its string form is its wrapped string). -/
def pyStrOf : PyVal → String
  | .strV s => s
  | .pathObj s => s
  | .intV n => (intRepr n).asString
  | .noneV => "None"

/-- `Path(x)`: `path.py`'s constructor accepts any value and produces a
`Path` object wrapping its string form. -/
def pathCtor (v : PyVal) : PyVal := .pathObj (pyStrOf v)

/-- Is the value a `path.py` `Path` object? -/
def isPathObj : PyVal → Bool
  | .pathObj _ => true
  | _ => false

/-- The `SceneFile` instance with dynamically-typed attribute slots:
`dirSlot` is the private `_dir` attribute. -/
structure SceneFileDyn where
  dirSlot : PyVal
  descriptor : PyVal
  version : PyVal
  ext : PyVal
deriving DecidableEq, Repr

/-- The operations of the class that write attribute slots.  `assignDir v`
is the public-property assignment `sf.dir = v` (any value); the other
`assign*` are the direct attribute writes Python allows on the public
fields; `reinitFromPath` is `_init_properties_from_path`;
`incrementVersion n` is `increment_and_save`'s write of the resolved next
version (an `int`). -/
inductive DynOp where
  | assignDir (v : PyVal)
  | assignDescriptor (v : PyVal)
  | assignVersion (v : PyVal)
  | assignExt (v : PyVal)
  | reinitFromPath (p : String)
  | incrementVersion (n : Int)

/-- One attribute-writing operation.  The `dir` setter routes every
assigned value through `Path(...)`.  `_init_properties_from_path` assigns
`self._dir = path.dirname()` (a `Path`) and `self.ext` (a `str` slice)
first; the remaining two assignments only happen when the parse does not
raise, so on a parse error the earlier writes stay in place. -/
def dynStep (f : SceneFileDyn) : DynOp → SceneFileDyn
  | .assignDir v => { f with dirSlot := pathCtor v }
  | .assignDescriptor v => { f with descriptor := v }
  | .assignVersion v => { f with version := v }
  | .assignExt v => { f with ext := v }
  | .reinitFromPath p =>
    let f1 := { f with dirSlot := PyVal.pathObj (pyDirname p.toList).asString,
                       ext := PyVal.strV ((pyExtFull p.toList).drop 1).asString }
    match _init_properties_from_path p with
    | .ok sf => { f1 with descriptor := PyVal.strV sf.descriptor,
                          version := PyVal.intV sf.version }
    | .error _ => f1
  | .incrementVersion n => { f with version := PyVal.intV n }

/-- `__init__` at slot level: `self._dir = Path(dir)`, the three plain
assignments, then — when the host reports an open scene —
`_init_properties_from_path(scene)`. -/
def dynConstruct (dirArg descriptor version ext : PyVal) (sceneName : String) :
    SceneFileDyn :=
  let f0 : SceneFileDyn := ⟨pathCtor dirArg, descriptor, version, ext⟩
  if sceneName.isEmpty then f0 else dynStep f0 (.reinitFromPath sceneName)

/-- A constructed object followed by any sequence of attribute-writing
operations. -/
def dynRun (f : SceneFileDyn) (ops : List DynOp) : SceneFileDyn :=
  ops.foldl dynStep f

/-! ## Helper lemmas -/

theorem mem_pyDedup {x : Int} : ∀ {l : List Int}, x ∈ pyDedup l ↔ x ∈ l := by
  intro l
  induction l with
  | nil => simp [pyDedup]
  | cons a t ih =>
    by_cases ha : a ∈ t
    · simp only [pyDedup, if_pos ha, ih, List.mem_cons]
      constructor
      · exact Or.inr
      · rintro (rfl | h)
        · exact ha
        · exact h
    · simp [pyDedup, if_neg ha, ih]

theorem mem_of_getLast?_eq_some {α : Type} :
    ∀ {l : List α} {m : α}, l.getLast? = some m → m ∈ l := by
  intro l
  induction l with
  | nil => intro m h; simp at h
  | cons a t ih =>
    intro m h
    cases t with
    | nil =>
      simp [List.getLast?] at h
      simp [h]
    | cons b t' =>
      rw [List.getLast?_cons_cons] at h
      exact List.mem_cons_of_mem a (ih h)

theorem sorted_getLast?_max :
    ∀ {l : List Int}, List.Sorted (· ≤ ·) l →
      ∀ {m : Int}, l.getLast? = some m → ∀ x ∈ l, x ≤ m := by
  intro l
  induction l with
  | nil => intro _ m h; simp at h
  | cons a t ih =>
    intro hs m hm x hx
    cases t with
    | nil =>
      simp [List.getLast?] at hm
      simp at hx
      omega
    | cons b t' =>
      rw [List.getLast?_cons_cons] at hm
      rcases List.mem_cons.mp hx with rfl | hx'
      · exact List.rel_of_sorted_cons hs m (mem_of_getLast?_eq_some hm)
      · exact ih (List.sorted_cons.mp hs).2 hm x hx'

/-! ## Claim theorems -/

/-- C1: the claim says `basename()` embeds the version as the marker `v`
followed by a zero-padded 3-digit decimal (`_v007`, `_v1000`).  The
source's pattern `"{descriptor}_{version:03d}.{ext}"` has no `v` marker:
at the claim's own inputs, version 7 renders as the segment `_007` and
version 1000 as `_1000`.  The zero-padding and no-truncation parts do hold;
only the `v` is missing (while `next_avail_version` and the parse both
expect it, so the composition is the slip). -/
theorem basename_renders_without_v_marker :
    SceneFile.basename ⟨"", "ship", 7, "ma"⟩ = "ship_007.ma" ∧
    SceneFile.basename ⟨"", "ship", 1000, "ma"⟩ = "ship_1000.ma" ∧
    "ship_007.ma" ≠ "ship_v007.ma" ∧ "ship_1000.ma" ≠ "ship_v1000.ma" := by
  refine ⟨rfl, rfl, by decide, by decide⟩

/-- C2: the claim says parse ∘ compose is the identity for descriptors
without `_`, extensions without `.` and versions in `[1, 999]`.  At
`⟨dir := "", descriptor := "ship", version := 100, ext := "ma"⟩` the
composed path is `"ship_100.ma"` (no `v` marker), and the parse strips the
leading character of the version segment (`"100"[1:] = "00"`), giving back
version 0, not 100.  (For versions below 100 the stripped character is the
pad `0`, which is why the slip round-trips there.) -/
theorem roundtrip_fails_at_version_100 :
    SceneFile.path ⟨"", "ship", 100, "ma"⟩ = "ship_100.ma" ∧
    _init_properties_from_path (SceneFile.path ⟨"", "ship", 100, "ma"⟩) =
      .ok ⟨"", "ship", 0, "ma"⟩ ∧
    (⟨"", "ship", 0, "ma"⟩ : SceneFile) ≠ ⟨"", "ship", 100, "ma"⟩ := by
  refine ⟨rfl, rfl, by decide⟩

/-- C5: constructed with no arguments and no open scene, the object does
default to descriptor `"main"`, version 1, extension `"ma"` and the empty
(current) directory — but `basename()` returns `"main_001.ma"`, not the
claimed `"main_v001.ma"`, because the source's name pattern omits the `v`
marker. -/
theorem construct_defaults_basename_no_v :
    SceneFile.construct "" "main" 1 "ma" "" = .ok ⟨"", "main", 1, "ma"⟩ ∧
    SceneFile.basename ⟨"", "main", 1, "ma"⟩ = "main_001.ma" ∧
    "main_001.ma" ≠ "main_v001.ma" := by
  refine ⟨rfl, rfl, by decide⟩

/-- C4: when no file of the listing matches the glob
`"{descriptor}_v*.{ext}"`, the comprehension yields no versions,
deduplication and sorting keep the list empty, and `versions[-1]` raises
`IndexError`: `next_avail_version` fails with the out-of-range error
instead of returning a version. -/
theorem next_avail_version_no_match_fails (f : SceneFile) (listing : List String)
    (h : matchedScenes f listing = []) :
    f.next_avail_version listing = .error .indexError := by
  simp [SceneFile.next_avail_version, h, extractVersions, pyDedup, pySorted,
    List.insertionSort]

theorem next_avail_version_no_match_fails_witness :
    matchedScenes ⟨"", "ship", 1, "ma"⟩ ["car_v001.ma", "ship_001.ma"] = [] ∧
    SceneFile.next_avail_version ⟨"", "ship", 1, "ma"⟩ ["car_v001.ma", "ship_001.ma"] =
      .error .indexError :=
  ⟨rfl, next_avail_version_no_match_fails ⟨"", "ship", 1, "ma"⟩
    ["car_v001.ma", "ship_001.ma"] rfl⟩

/-- C6 counterexample: the claim says parsing fails whenever the final
segment lacks the expected separators, requiring both exactly one `_`
split point *and* a `.` in the remainder.  The input `"ship_v007"` has
exactly one `_` and no `.` at all, yet `_init_properties_from_path`
succeeds: `path.ext` is the empty string, `""[1:]` is `""`, the version
segment `"v007"` is not truncated at any dot, and `int("007")` parses.  A
missing dot is not an error. -/
theorem parse_succeeds_without_dot :
    _init_properties_from_path "ship_v007" = .ok ⟨"", "ship", 7, ""⟩ ∧
    ¬ ('.' ∈ "ship_v007".toList) := by
  refine ⟨rfl, by decide⟩

/-- C6 (amended): parsing fails, propagating an error, exactly when the
path's final segment does not split on `_` into exactly two parts, or the
version segment (the part after the `_`, truncated at its first `.` if
any, with its leading marker character stripped) is not a decimal
integer.  A missing `.` by itself is not an error — the extension simply
becomes empty. -/
theorem parse_fails_iff (p : String) :
    (∃ e, _init_properties_from_path p = .error e) ↔
      ((splitOnChar '_' (pyBasename p.toList)).length ≠ 2 ∨
        ∃ d v, splitOnChar '_' (pyBasename p.toList) = [d, v] ∧
          pyInt (((splitOnChar '.' v).headD []).drop 1) = none) := by
  simp only [_init_properties_from_path]
  split
  · next d v heq =>
    split
    · next n hp =>
      constructor
      · rintro ⟨e, he⟩
        exact absurd he (by simp)
      · rintro (hlen | ⟨d', v', hdv, hnone⟩)
        · rw [heq] at hlen
          simp at hlen
        · rw [heq] at hdv
          obtain ⟨rfl, rfl⟩ : d = d' ∧ v = v' := by simpa using hdv
          rw [hp] at hnone
          exact absurd hnone (by simp)
    · next hp =>
      constructor
      · intro _
        exact Or.inr ⟨d, v, heq, hp⟩
      · intro _
        exact ⟨.valueError, rfl⟩
  · next hne =>
    constructor
    · intro _
      refine Or.inl (fun hlen => ?_)
      obtain ⟨a, b, hab⟩ := List.length_eq_two.mp hlen
      exact hne a b hab
    · intro _
      exact ⟨.valueError, rfl⟩

theorem exists_getLast?_of_ne_nil {α : Type} {l : List α} (h : l ≠ []) :
    ∃ m, l.getLast? = some m := by
  cases l with
  | nil => exact absurd rfl h
  | cons a t => exact ⟨(a :: t).getLast (by simp), List.getLast?_eq_getLast_of_ne_nil _⟩

/-- C3: when at least one file name of the listing matches the glob
`"{descriptor}_v*.{ext}"` and every matched name's version segment parses
(`vs` is the comprehension's output, `m` its maximum),
`next_avail_version` returns `m + 1`: one plus the maximum of the version
integers extracted by splitting on `"_v"` and then on `"."` — and since
the maximum of the deduplicated set equals the maximum of the raw list,
collapsing duplicates does not change the result. -/
theorem next_avail_version_succ_max (f : SceneFile) (listing : List String)
    (vs : List Int) (m : Int)
    (hvs : extractVersions ((matchedScenes f listing).map (fun s => s.toList)) = .ok vs)
    (hmem : m ∈ vs) (hmax : ∀ x ∈ vs, x ≤ m) :
    f.next_avail_version listing = .ok (m + 1) := by
  have hperm : (pySorted (pyDedup vs)).Perm (pyDedup vs) :=
    List.perm_insertionSort (· ≤ ·) (pyDedup vs)
  have hsorted : List.Sorted (· ≤ ·) (pySorted (pyDedup vs)) :=
    List.sorted_insertionSort (· ≤ ·) (pyDedup vs)
  have hmemL : m ∈ pySorted (pyDedup vs) :=
    hperm.mem_iff.mpr (mem_pyDedup.mpr hmem)
  obtain ⟨m', hm'⟩ := exists_getLast?_of_ne_nil (l := pySorted (pyDedup vs))
    (fun hnil => by rw [hnil] at hmemL; simp at hmemL)
  have h1 : m' ≤ m :=
    hmax m' (mem_pyDedup.mp (hperm.mem_iff.mp (mem_of_getLast?_eq_some hm')))
  have h2 : m ≤ m' := sorted_getLast?_max hsorted hm' m hmemL
  have hmm : m' = m := le_antisymm h1 h2
  subst hmm
  simp only [String.toList] at hvs
  simp [SceneFile.next_avail_version, String.toList, hvs, hm']

theorem next_avail_version_succ_max_witness :
    extractVersions ((matchedScenes ⟨"", "ship", 1, "ma"⟩
        ["ship_v001.ma", "ship_v003.ma", "ship_v003.ma"]).map (fun s => s.toList)) =
      .ok [1, 3, 3] ∧
    (3 : Int) ∈ [(1 : Int), 3, 3] ∧ (∀ x ∈ [(1 : Int), 3, 3], x ≤ 3) ∧
    SceneFile.next_avail_version ⟨"", "ship", 1, "ma"⟩
        ["ship_v001.ma", "ship_v003.ma", "ship_v003.ma"] = .ok 4 :=
  ⟨rfl, by decide, by decide,
    next_avail_version_succ_max ⟨"", "ship", 1, "ma"⟩
      ["ship_v001.ma", "ship_v003.ma", "ship_v003.ma"] [1, 3, 3] 3 rfl
      (by decide) (by decide)⟩

/-- C7: `save` asks the host to save at the composed path.  When the first
call succeeds, there is exactly one host call and no directory creation.
When the host reports missing target directories (its `RuntimeError`, the
only exception class the `except` clause catches), `save` creates the
directory tree and retries exactly once — two host calls, both at the
composed path — and whatever the second attempt raises propagates.  A host
failure of any other exception class is not caught: it propagates from the
first attempt, with no retry and no directory creation. -/
theorem save_retries_once_on_missing_dirs (f : SceneFile)
    (host : Nat → String → SaveOutcome) :
    (host 0 f.path = .ok →
      f.save host = ⟨[f.path], false, .ok .noneV⟩) ∧
    (host 0 f.path = .runtimeError →
      (f.save host).madeDirs = true ∧
      (f.save host).calls = [f.path, f.path] ∧
      (host 1 f.path = .ok → (f.save host).result = .ok .noneV) ∧
      (host 1 f.path = .runtimeError → (f.save host).result = .error .runtimeError) ∧
      (host 1 f.path = .otherError → (f.save host).result = .error .otherError)) ∧
    (host 0 f.path = .otherError →
      f.save host = ⟨[f.path], false, .error .otherError⟩) := by
  cases h0 : host 0 f.path <;> cases h1 : host 1 f.path <;>
    simp [SceneFile.save, h0, h1]

theorem save_retries_once_on_missing_dirs_witness :
    ((fun n _ => if n = 0 then SaveOutcome.runtimeError else SaveOutcome.otherError) 0
        (SceneFile.path ⟨"d", "ship", 1, "ma"⟩) = SaveOutcome.runtimeError) ∧
    (SceneFile.save ⟨"d", "ship", 1, "ma"⟩
        (fun n _ => if n = 0 then SaveOutcome.runtimeError else SaveOutcome.otherError)).madeDirs
      = true ∧
    (SceneFile.save ⟨"d", "ship", 1, "ma"⟩
        (fun n _ => if n = 0 then SaveOutcome.runtimeError else SaveOutcome.otherError)).result
      = .error .otherError :=
  ⟨rfl,
    ((save_retries_once_on_missing_dirs ⟨"d", "ship", 1, "ma"⟩
        (fun n _ => if n = 0 then SaveOutcome.runtimeError else SaveOutcome.otherError)).2.1
      rfl).1,
    (((save_retries_once_on_missing_dirs ⟨"d", "ship", 1, "ma"⟩
        (fun n _ => if n = 0 then SaveOutcome.runtimeError else SaveOutcome.otherError)).2.1
      rfl).2.2.2.2 rfl)⟩

/-- C8: `increment_and_save` assigns `self.version = self.next_avail_version()`
and only then calls `save`: whenever next-version resolution returns `v`,
the object's version field is `v` afterwards, the inner save runs on the
already-mutated object, and the run's outcome is exactly that save's
outcome — so when the save fails, the version field has already been
changed to `v` even though nothing was written (no rollback). -/
theorem increment_and_save_mutates_version_first (f : SceneFile)
    (listing : List String) (host : Nat → String → SaveOutcome) (v : Int)
    (hv : f.next_avail_version listing = .ok v) :
    (f.increment_and_save listing host).state.version = v ∧
    (f.increment_and_save listing host).saveTrace =
      some (SceneFile.save { f with version := v } host) ∧
    (f.increment_and_save listing host).result =
      (SceneFile.save { f with version := v } host).result := by
  simp [SceneFile.increment_and_save, hv]

theorem increment_and_save_mutates_version_first_witness :
    SceneFile.next_avail_version ⟨"", "ship", 1, "ma"⟩ ["ship_v001.ma"] = .ok 2 ∧
    (SceneFile.increment_and_save ⟨"", "ship", 1, "ma"⟩ ["ship_v001.ma"]
        (fun _ _ => SaveOutcome.otherError)).state.version = 2 ∧
    (SceneFile.increment_and_save ⟨"", "ship", 1, "ma"⟩ ["ship_v001.ma"]
        (fun _ _ => SaveOutcome.otherError)).result = .error .otherError :=
  ⟨rfl,
    (increment_and_save_mutates_version_first ⟨"", "ship", 1, "ma"⟩ ["ship_v001.ma"]
      (fun _ _ => SaveOutcome.otherError) 2 rfl).1,
    ((increment_and_save_mutates_version_first ⟨"", "ship", 1, "ma"⟩ ["ship_v001.ma"]
      (fun _ _ => SaveOutcome.otherError) 2 rfl).2.2).trans rfl⟩

/-- C10: neither `save` nor `increment_and_save` has a `return` statement:
on every path where no exception propagates — first-attempt success and
success on the retry alike — the value a caller receives is `None`, never
the saved path. -/
theorem save_and_increment_and_save_return_none :
    (∀ (f : SceneFile) (host : Nat → String → SaveOutcome) (v : PyVal),
      (f.save host).result = .ok v → v = .noneV) ∧
    (∀ (f : SceneFile) (listing : List String) (host : Nat → String → SaveOutcome)
      (v : PyVal),
      (f.increment_and_save listing host).result = .ok v → v = .noneV) := by
  have hsave : ∀ (f : SceneFile) (host : Nat → String → SaveOutcome) (v : PyVal),
      (f.save host).result = .ok v → v = .noneV := by
    intro f host v h
    cases h0 : host 0 f.path <;> cases h1 : host 1 f.path <;>
      rw [SceneFile.save] at h <;> simp [h0, h1] at h <;> exact h.symm
  refine ⟨hsave, ?_⟩
  intro f listing host v h
  cases hv : f.next_avail_version listing with
  | error e =>
    rw [SceneFile.increment_and_save] at h
    simp [hv] at h
  | ok w =>
    rw [SceneFile.increment_and_save] at h
    simp only [hv] at h
    exact hsave _ host v h

theorem save_and_increment_and_save_return_none_witness :
    (SceneFile.save ⟨"", "main", 1, "ma"⟩ (fun _ _ => SaveOutcome.ok)).result =
      .ok PyVal.noneV ∧ PyVal.noneV = PyVal.noneV :=
  ⟨rfl, save_and_increment_and_save_return_none.1 ⟨"", "main", 1, "ma"⟩
    (fun _ _ => SaveOutcome.ok) PyVal.noneV rfl⟩

theorem dynStep_preserves_pathObj (f : SceneFileDyn) (op : DynOp)
    (h : isPathObj f.dirSlot = true) : isPathObj (dynStep f op).dirSlot = true := by
  cases op with
  | assignDir v => simp [dynStep, pathCtor, isPathObj]
  | assignDescriptor v => simpa [dynStep] using h
  | assignVersion v => simpa [dynStep] using h
  | assignExt v => simpa [dynStep] using h
  | reinitFromPath p =>
    cases hip : _init_properties_from_path p with
    | error e => simp [dynStep, hip, isPathObj]
    | ok sf => simp [dynStep, hip, isPathObj]
  | incrementVersion n => simpa [dynStep] using h

theorem dynRun_preserves_pathObj (ops : List DynOp) :
    ∀ f : SceneFileDyn, isPathObj f.dirSlot = true →
      isPathObj (dynRun f ops).dirSlot = true := by
  induction ops with
  | nil => intro f h; simpa [dynRun] using h
  | cons op rest ih =>
    intro f h
    have : dynRun f (op :: rest) = dynRun (dynStep f op) rest := rfl
    rw [this]
    exact ih (dynStep f op) (dynStep_preserves_pathObj f op h)

/-- C9: the constructor stores `Path(dir)` in the `_dir` slot, the public
`dir` setter routes every assigned value — of any type — through the
`Path` constructor, and `_init_properties_from_path` stores
`path.dirname()`, also a `Path`.  Hence after construction (with or
without an open scene) and after any sequence of the class's
attribute-writing operations, the stored directory is a `Path` object. -/
theorem dir_slot_always_path_object (dirArg d v e : PyVal) (scn : String)
    (ops : List DynOp) :
    isPathObj ((dynRun (dynConstruct dirArg d v e scn) ops).dirSlot) = true := by
  apply dynRun_preserves_pathObj
  unfold dynConstruct
  cases hs : scn.isEmpty with
  | true => simp [pathCtor, isPathObj]
  | false =>
    simp only [Bool.false_eq_true, if_false]
    exact dynStep_preserves_pathObj _ _ (by simp [pathCtor, isPathObj])
